import Mathlib

/-!
Verification of the pintless quantity library.

The repository source under verification is `pintless/quantity.py` (the
`Quantity` wrapper) together with its test suite `tests/test_unit.py`.
The companion module `pintless/unit.py` (the `Unit`/`BaseUnit` algebra
engine) is not part of the available source tree; its definitions below
are modelled from the specification document, as marked in their doc
comments.  Magnitudes and scale factors are embedded as rationals.
-/

namespace Pintless

/-- Modelled from the spec: `BaseUnit` from the missing `pintless/unit.py` —
an indivisible named unit tag with a dimensional category (e.g. `[length]`)
and a multiplicative scale factor relative to the category's canonical
base unit. -/
structure BaseUnit where
  name : String
  dimensional_category : String
  scale : ℚ
deriving DecidableEq

/-- Modelled from the spec: the data a Registry holds — a lookup table from
string names to the numerator/denominator term lists of the named unit.
The Registry itself is an external collaborator; a `Unit` keeps this table
as its optional back-reference so string targets of `to`/`ito` can be
resolved. -/
def RegistryData : Type := List (String × (List BaseUnit × List BaseUnit))

instance : DecidableEq RegistryData := by
  unfold RegistryData
  infer_instance

/-- Modelled from the spec: `Unit` (CompoundUnit) from the missing
`pintless/unit.py` — an ordered collection of `BaseUnit` terms in the
numerator and the denominator, plus an optional back-reference to the
Registry used only to resolve string unit names. -/
structure Unit where
  numerator_units : List BaseUnit
  denominator_units : List BaseUnit
  registry : Option RegistryData
deriving DecidableEq

/-- Modelled from the spec: `Registry.get_unit` — name lookup failing for
unknown names; every Unit produced carries the back-reference to the
registry that produced it. -/
def get_unit (reg : RegistryData) (uname : String) : Option Unit :=
  (reg.lookup uname).map fun p => ⟨p.1, p.2, some reg⟩

/-- Modelled from the spec: the display of the dimensional categories on one
side of a compound unit — categories joined by `*`, with an empty side
standing for `[dimensionless]`. -/
def unitTypeSide : List BaseUnit → String
  | [] => "[dimensionless]"
  | ts => String.intercalate "*" (ts.map BaseUnit.dimensional_category)

/-- Modelled from the spec: `Unit.unit_type`, the string signature
`"<numerator-dims>/<denominator-dims>"` derived from the categories of the
numerator and denominator terms. -/
def Unit.unit_type (u : Unit) : String :=
  unitTypeSide u.numerator_units ++ "/" ++ unitTypeSide u.denominator_units

/-- Modelled from the spec: the `dimensionless_unit` accessor every Unit
exposes — a compound unit with empty numerator and denominator terms. -/
def Unit.dimensionless_unit (u : Unit) : Unit :=
  ⟨[], [], u.registry⟩

/-- Modelled from the spec: unit `multiply` — concatenates numerator terms
with numerator terms and denominator terms with denominator terms, with no
cancellation at this stage. -/
def Unit.mul (a b : Unit) : Unit :=
  ⟨a.numerator_units ++ b.numerator_units,
   a.denominator_units ++ b.denominator_units,
   a.registry⟩

/-- Modelled from the spec: unit `divide` — `multiply(a, invert(b))` where
`invert` swaps the numerator and denominator term lists. -/
def Unit.div (a b : Unit) : Unit :=
  Unit.mul a ⟨b.denominator_units, b.numerator_units, b.registry⟩

/-- Modelled from the spec: product of the pairwise scale ratios of
correspondingly matched terms of two sides. -/
def scaleRatioProd (xs ys : List BaseUnit) : ℚ :=
  ((xs.zip ys).map fun p => p.1.scale / p.2.scale).prod

/-- Modelled from the spec: the numeric value of the conversion factor
between two units of the same dimensional signature — the product of the
matched numerator scale ratios divided by the product of the matched
denominator scale ratios. -/
def cfValue (src tgt : Unit) : ℚ :=
  scaleRatioProd src.numerator_units tgt.numerator_units /
    scaleRatioProd src.denominator_units tgt.denominator_units

/-- Errors the embedded operations can raise, mirroring the Python
exceptions: the type-mismatch `TypeError` of `conversion_factor`, the
configuration `ValueError` raised by `to`/`ito` when no registry is
linked, the registry's lookup error for an unknown name, the `ValueError`
of `__add__` on a non-Quantity operand, the failed `assert` of `__add__`,
`ZeroDivisionError`, and the `NameError` of an unresolved global name. -/
inductive QError where
  | typeError
  | configError
  | lookupError
  | valueError
  | assertionError
  | zeroDivisionError
  | nameError
deriving DecidableEq

/-- Modelled from the spec: `Unit.conversion_factor` — defined only when the
two unit_types coincide, in which case it returns the product of matched
scale ratios; otherwise it fails with a type-mismatch error (never a
silent factor of 1). -/
def Unit.conversion_factor (src tgt : Unit) : Except QError ℚ :=
  if src.unit_type = tgt.unit_type then .ok (cfValue src tgt)
  else .error .typeError

/-- Modelled from the spec: one step of `simplify` — find the first
denominator term sharing the given numerator term's category, remove it,
and report the scale ratio `numerator_term.scale / denominator_term.scale`
of the cancelled pair. -/
def cancelFirst (n : BaseUnit) : List BaseUnit → Option (ℚ × List BaseUnit)
  | [] => none
  | d :: ds =>
    if d.dimensional_category = n.dimensional_category then
      some (n.scale / d.scale, ds)
    else
      (cancelFirst n ds).map fun p => (p.1, d :: p.2)

/-- Modelled from the spec: the cancellation loop of `simplify`, taking the
numerator terms in their original order (the deterministic tie-break) and
cancelling each against the first same-category denominator term, while
accumulating the net scale factor. -/
def simplifyAux : List BaseUnit → List BaseUnit → ℚ × List BaseUnit × List BaseUnit
  | [], dens => (1, [], dens)
  | n :: ns, dens =>
    match cancelFirst n dens with
    | some (f, dens2) =>
      let r := simplifyAux ns dens2
      (f * r.1, r.2.1, r.2.2)
    | none =>
      let r := simplifyAux ns dens
      (r.1, n :: r.2.1, r.2.2)

/-- Modelled from the spec: `Unit.simplify` — repeatedly cancel a numerator
term against a same-category denominator term, accumulating the scale
ratio of each cancelled pair, until no same-category pair remains; returns
the residual factor and the fully cancelled unit. -/
def Unit.simplify (u : Unit) : ℚ × Unit :=
  let r := simplifyAux u.numerator_units u.denominator_units
  (r.1, ⟨r.2.1, r.2.2, u.registry⟩)

/-- Modelled from the spec: `Unit.__eq__` — two compound units are equal iff
they have the same numerator and denominator term multisets (order
irrelevant for equality), `BaseUnit` equality carrying name, category and
scale; the registry back-reference does not take part. -/
def Unit.eq (a b : Unit) : Bool :=
  decide ((a.numerator_units : Multiset BaseUnit) = (b.numerator_units : Multiset BaseUnit)) &&
    decide ((a.denominator_units : Multiset BaseUnit) = (b.denominator_units : Multiset BaseUnit))

/-- Embedded from `quantity.py`: a `Quantity` pairs a numeric magnitude with
a `Unit` (the derived pint-compatibility attributes `units` and
`dimensionality` are aliases of `unit` and `unit.unit_type` and are not
separate state). -/
structure Quantity where
  magnitude : ℚ
  unit : Unit
deriving DecidableEq

/-- A dynamically-typed right operand of the Python operators: another
`Quantity`, a bare `Unit`, or a plain number. -/
inductive Operand where
  | qty (q : Quantity)
  | unitOp (u : Unit)
  | num (x : ℚ)
deriving DecidableEq

/-- A target of `to`/`ito`: either a unit name string or a `Unit` object. -/
inductive Target where
  | str (s : String)
  | unit (u : Unit)
deriving DecidableEq

/-- Embedded from `quantity.py` lines 37-40 and 49-52: resolve a conversion
target; a string target needs the linked registry (a missing registry is
the configuration `ValueError`, an unknown name the registry's lookup
error). -/
def resolveTarget (q : Quantity) : Target → Except QError Unit
  | .unit u => .ok u
  | .str s =>
    match q.unit.registry with
    | none => .error .configError
    | some reg =>
      match get_unit reg s with
      | some u => .ok u
      | none => .error .lookupError

/-- Embedded from `quantity.py` `Quantity.to`: resolve the target, multiply
the magnitude by `self.unit.conversion_factor(target)`, and return a new
Quantity in the target unit; failures of resolution or of the conversion
factor propagate. -/
def Quantity.to (q : Quantity) (t : Target) : Except QError Quantity :=
  match resolveTarget q t with
  | .error e => .error e
  | .ok tu =>
    match Unit.conversion_factor q.unit tu with
    | .error e => .error e
    | .ok f => .ok ⟨q.magnitude * f, tu⟩

/-- Embedded from `quantity.py` `Quantity.ito`: the in-place version of
`to`, returned here as the pair of the call's outcome and the state of the
quantity after the call.  The conversion factor is computed before either
field is written, so a failure leaves the original state. -/
def Quantity.ito (q : Quantity) (t : Target) : Except QError PUnit.{1} × Quantity :=
  match resolveTarget q t with
  | .error e => (.error e, q)
  | .ok tu =>
    match Unit.conversion_factor q.unit tu with
    | .error e => (.error e, q)
    | .ok f => (.ok PUnit.unit, ⟨q.magnitude * f, tu⟩)

/-- Embedded from `quantity.py` `Quantity.__eq__`: true iff the operand is a
`Quantity` with equal magnitude and equal unit (unit equality being
`Unit.__eq__`); any non-Quantity operand compares unequal. -/
def Quantity.eq (q : Quantity) : Operand → Bool
  | .qty b => decide (q.magnitude = b.magnitude) && Unit.eq q.unit b.unit
  | _ => false

/-- Embedded from `quantity.py` `Quantity.__lt__`: false on a non-Quantity
operand; on a Quantity `b`, compares `self.magnitude` with
`b.magnitude * self.unit.conversion_factor(b.unit)` (note the factor is
taken from self's unit towards the operand's unit). -/
def Quantity.lt (q : Quantity) : Operand → Except QError Bool
  | .qty b =>
    match Unit.conversion_factor q.unit b.unit with
    | .error e => .error e
    | .ok f => .ok (decide (q.magnitude < b.magnitude * f))
  | _ => .ok false

/-- Embedded from `quantity.py` `Quantity.__add__`: a non-Quantity operand
is rejected with a `ValueError`; equal unit_types are asserted; the
operand's magnitude is converted into self's unit via
`__o.unit.conversion_factor(self.unit)` and the sum keeps self's unit. -/
def Quantity.add (q : Quantity) : Operand → Except QError Quantity
  | .qty b =>
    if q.unit.unit_type = b.unit.unit_type then
      match Unit.conversion_factor b.unit q.unit with
      | .error e => .error e
      | .ok f => .ok ⟨q.magnitude + b.magnitude * f, q.unit⟩
    else .error .assertionError
  | _ => .error .valueError

/-- Embedded from `quantity.py` lines 100-103: the Quantity-by-Quantity core
of `__mul__` — multiply the magnitudes, `simplify` the product of the
units, and scale the result by the simplification factor. -/
def mulQQ (a b : Quantity) : Quantity :=
  let s := (Unit.mul a.unit b.unit).simplify
  ⟨a.magnitude * b.magnitude * s.1, s.2⟩

/-- Embedded from `quantity.py` `Quantity.__mul__`: a bare `Unit` operand
attaches to the unit with the magnitude unchanged; a plain number is
wrapped as a dimensionless Quantity; a Quantity operand goes through the
multiply-then-simplify core. -/
def Quantity.mul (q : Quantity) : Operand → Quantity
  | .unitOp u => ⟨q.magnitude, Unit.mul q.unit u⟩
  | .qty b => mulQQ q b
  | .num x => mulQQ q ⟨x, q.unit.dimensionless_unit⟩

/-- Embedded from `quantity.py` lines 112-115: the Quantity-by-Quantity core
of `__truediv__` — divide the magnitudes (a zero divisor is Python's
`ZeroDivisionError`), `simplify` the quotient of the units, and scale the
result by the simplification factor. -/
def divQQ (a b : Quantity) : Except QError Quantity :=
  if b.magnitude = 0 then .error .zeroDivisionError
  else
    let s := (Unit.div a.unit b.unit).simplify
    .ok ⟨a.magnitude / b.magnitude * s.1, s.2⟩

/-- Embedded from `quantity.py` `Quantity.__truediv__`: unlike `__mul__`
there is no bare-`Unit` branch — a non-Quantity operand is wrapped as a
dimensionless Quantity, so a bare `Unit` becomes the wrapped magnitude and
the numeric division `self.magnitude / unit-object` fails with a
`TypeError` (the spec-modelled Unit defines no division of a number by a
unit); a plain number divides as a dimensionless Quantity. -/
def Quantity.truediv (q : Quantity) : Operand → Except QError Quantity
  | .qty b => divQQ q b
  | .num x => divQQ q ⟨x, q.unit.dimensionless_unit⟩
  | .unitOp _ => .error .typeError

/-- Names bound at module top level in `quantity.py` (lines 2-8): the
`annotations` future import, `Union` and `TYPE_CHECKING` from `typing`,
the `unit` module alias, and the `Quantity` class itself. -/
def moduleBindings : List String :=
  ["annotations", "Union", "TYPE_CHECKING", "unit", "Quantity"]

/-- Python built-in names available without import that are relevant to
`quantity.py`.  Python's builtins include `round` and `abs` but provide no
`trunc`, `floor` or `ceil` — those only exist in the `math` module, which
`quantity.py` never imports. -/
def pyBuiltins : List String :=
  ["abs", "round", "bool", "complex", "float", "int", "str", "repr",
   "isinstance", "ValueError", "TypeError", "NameError", "object"]

/-- Resolution of a global name inside `quantity.py`: module bindings first,
then Python builtins. -/
def resolvesGlobal (n : String) : Bool :=
  moduleBindings.contains n || pyBuiltins.contains n

/-- Truncation towards zero on rationals, the meaning `trunc` would have if
it resolved. -/
def truncRat (x : ℚ) : ℚ :=
  if 0 ≤ x then (x.floor : ℚ) else (x.ceil : ℚ)

/-- Embedded from `quantity.py` `Quantity.__trunc__`: evaluates the free
global name `trunc`; if it does not resolve the call raises `NameError`. -/
def Quantity.qtrunc (q : Quantity) : Except QError Quantity :=
  if resolvesGlobal "trunc" then .ok ⟨truncRat q.magnitude, q.unit⟩
  else .error .nameError

/-- Embedded from `quantity.py` `Quantity.__floor__`: evaluates the free
global name `floor`; if it does not resolve the call raises `NameError`. -/
def Quantity.qfloor (q : Quantity) : Except QError Quantity :=
  if resolvesGlobal "floor" then .ok ⟨(q.magnitude.floor : ℚ), q.unit⟩
  else .error .nameError

/-- Embedded from `quantity.py` `Quantity.__ceil__`: evaluates the free
global name `ceil`; if it does not resolve the call raises `NameError`. -/
def Quantity.qceil (q : Quantity) : Except QError Quantity :=
  if resolvesGlobal "ceil" then .ok ⟨(q.magnitude.ceil : ℚ), q.unit⟩
  else .error .nameError

/-- The kilometer unit as the Registry would build it: one `[length]`
numerator term of scale 1000. -/
def kmUnit : Unit := ⟨[⟨"km", "[length]", 1000⟩], [], none⟩

/-- The meter unit as the Registry would build it: one `[length]` numerator
term of scale 1. -/
def meterUnit : Unit := ⟨[⟨"meter", "[length]", 1⟩], [], none⟩

/-- The dimensionless unit with no linked registry. -/
def dimensionlessUnit : Unit := ⟨[], [], none⟩


/-- Scales of all base-unit terms of a unit are nonzero — the well-formedness
every Registry-built unit satisfies, a scale being a multiplicative
conversion factor. -/
def scalesNonzero (u : Unit) : Prop :=
  (∀ b ∈ u.numerator_units, b.scale ≠ 0) ∧ (∀ b ∈ u.denominator_units, b.scale ≠ 0)

theorem scaleRatioProd_mul_symm :
    ∀ (xs ys : List BaseUnit), (∀ b ∈ xs, b.scale ≠ 0) → (∀ b ∈ ys, b.scale ≠ 0) →
      scaleRatioProd xs ys * scaleRatioProd ys xs = 1
  | [], ys, _, _ => by simp [scaleRatioProd]
  | x :: xs, [], _, _ => by simp [scaleRatioProd]
  | x :: xs, y :: ys, hx, hy => by
    have hrec := scaleRatioProd_mul_symm xs ys
      (fun b hb => hx b (List.mem_cons_of_mem _ hb))
      (fun b hb => hy b (List.mem_cons_of_mem _ hb))
    have hx0 : x.scale ≠ 0 := hx x (List.mem_cons_self _ _)
    have hy0 : y.scale ≠ 0 := hy y (List.mem_cons_self _ _)
    simp only [scaleRatioProd, List.zip_cons_cons, List.map_cons, List.prod_cons] at hrec ⊢
    calc (x.scale / y.scale * ((xs.zip ys).map fun p => p.1.scale / p.2.scale).prod) *
          (y.scale / x.scale * ((ys.zip xs).map fun p => p.1.scale / p.2.scale).prod)
        = (x.scale / y.scale * (y.scale / x.scale)) *
            ((((xs.zip ys).map fun p => p.1.scale / p.2.scale).prod) *
              (((ys.zip xs).map fun p => p.1.scale / p.2.scale).prod)) := by ring
      _ = (x.scale / y.scale * (y.scale / x.scale)) * 1 := by rw [hrec]
      _ = 1 := by field_simp

theorem cfValue_mul_symm (u v : Unit) (hu : scalesNonzero u) (hv : scalesNonzero v) :
    cfValue u v * cfValue v u = 1 := by
  obtain ⟨hun, hud⟩ := hu
  obtain ⟨hvn, hvd⟩ := hv
  have hN := scaleRatioProd_mul_symm u.numerator_units v.numerator_units hun hvn
  have hD := scaleRatioProd_mul_symm u.denominator_units v.denominator_units hud hvd
  unfold cfValue
  rw [div_mul_div_comm, hN, hD]
  norm_num

/-- C1: the division `(10 km) / (20 meter)` does produce the dimensionless
quantity of magnitude 500, but comparing that result with the plain number
500 under `Quantity.__eq__` yields `False`, because `__eq__` rejects every
non-Quantity operand — the equality the claim (with the repository's own
test `test_simplify`) asserts does not hold. -/
theorem div_scenario_result_never_equals_plain_number :
    Quantity.truediv ⟨10, kmUnit⟩ (.qty ⟨20, meterUnit⟩) = .ok ⟨500, dimensionlessUnit⟩ ∧
    Quantity.eq ⟨500, dimensionlessUnit⟩ (.num 500) = false := by
  constructor
  · simp [Quantity.truediv, divQQ, Unit.div, Unit.mul, Unit.simplify, simplifyAux,
      cancelFirst, kmUnit, meterUnit, dimensionlessUnit]
    norm_num
  · rfl

/-- C2: evaluated at `a = 2 km`, `b = 1 meter`, the code's less-than returns
`True` because it multiplies b's magnitude by
`conversion_factor(a.unit, b.unit) = 1000` (the factor towards the OTHER
operand's unit), while the claimed comparison
`a.magnitude < b.magnitude * conversion_factor(b.unit, a.unit)` is `False`
there — the code converts in the wrong direction. -/
theorem lt_conversion_direction_swapped :
    Quantity.lt ⟨2, kmUnit⟩ (.qty ⟨1, meterUnit⟩) = .ok true ∧
    ¬ ((2 : ℚ) < 1 * cfValue meterUnit kmUnit) := by
  constructor
  · simp [Quantity.lt, Unit.conversion_factor, Unit.unit_type, unitTypeSide,
      cfValue, scaleRatioProd, kmUnit, meterUnit]
    norm_num
  · simp [cfValue, scaleRatioProd, kmUnit, meterUnit]
    norm_num

/-- C3: for Quantities of identical unit_type, addition converts the right
operand's magnitude into the left operand's unit via
`conversion_factor(b.unit, a.unit)`, sums, and keeps the left unit; for
differing unit_types the addition fails (the failed assertion). -/
theorem add_converts_operand_into_self_unit (a b : Quantity) :
    (a.unit.unit_type = b.unit.unit_type →
      Quantity.add a (.qty b) =
        .ok ⟨a.magnitude + b.magnitude * cfValue b.unit a.unit, a.unit⟩) ∧
    (a.unit.unit_type ≠ b.unit.unit_type →
      Quantity.add a (.qty b) = .error .assertionError) := by
  constructor
  · intro h
    simp [Quantity.add, Unit.conversion_factor, h]
  · intro h
    simp [Quantity.add, h]

/-- Witness for C3: adding 500 meter to 1 km succeeds and converts the
meters into kilometers. -/
theorem add_converts_operand_into_self_unit_witness :
    Quantity.add ⟨1, kmUnit⟩ (.qty ⟨500, meterUnit⟩) =
      .ok ⟨1 + 500 * cfValue meterUnit kmUnit, kmUnit⟩ :=
  (add_converts_operand_into_self_unit ⟨1, kmUnit⟩ ⟨500, meterUnit⟩).1 rfl

/-- C4 counterexample: dividing the Quantity 6 km by the bare Unit meter does
not return the magnitude-unchanged quantity with unit `km/meter` the claim
asserts — `__truediv__` has no bare-Unit branch and the wrapped
unit-as-magnitude fails the numeric division. -/
theorem truediv_bare_unit_counterexample :
    Quantity.truediv ⟨6, kmUnit⟩ (.unitOp meterUnit) ≠
      .ok ⟨6, Unit.div kmUnit meterUnit⟩ := by
  intro h
  exact Except.noConfusion h

/-- C4 amended: Quantity division mirrors multiplication for Quantity and
plain-number right operands — a Quantity divisor divides the magnitudes,
applies unit divide then simplify and scales by the simplification factor,
and a plain number is treated as a dimensionless Quantity — but, unlike
multiplication, there is no special case for a bare Unit right operand:
that division fails instead of returning the unit-divided quantity. -/
theorem truediv_mirrors_mul_except_bare_unit (a b : Quantity) (x : ℚ) (u : Unit) :
    (b.magnitude ≠ 0 →
      Quantity.truediv a (.qty b) =
        .ok ⟨a.magnitude / b.magnitude * (Unit.div a.unit b.unit).simplify.1,
             ((Unit.div a.unit b.unit).simplify).2⟩) ∧
    (Quantity.truediv a (.num x) =
      Quantity.truediv a (.qty ⟨x, a.unit.dimensionless_unit⟩)) ∧
    (Quantity.truediv a (.unitOp u) = .error .typeError) := by
  refine ⟨?_, rfl, rfl⟩
  intro h
  simp [Quantity.truediv, divQQ, h]

/-- Witness for C4: dividing 10 km by the Quantity 20 meter divides the
magnitudes and rescales by the simplification factor of `km/meter`. -/
theorem truediv_mirrors_mul_except_bare_unit_witness :
    Quantity.truediv ⟨10, kmUnit⟩ (.qty ⟨20, meterUnit⟩) =
      .ok ⟨10 / 20 * (Unit.div kmUnit meterUnit).simplify.1,
           ((Unit.div kmUnit meterUnit).simplify).2⟩ :=
  (truediv_mirrors_mul_except_bare_unit ⟨10, kmUnit⟩ ⟨20, meterUnit⟩ 5 meterUnit).1
    (by norm_num)

/-- C5: Quantity equality holds exactly when the magnitudes are equal and
the units are equal under Unit equality; in particular 1 km and 1000 meter
are not equal, their units being distinct. -/
theorem eq_strict_policy :
    (∀ a b : Quantity,
      Quantity.eq a (.qty b) = true ↔
        a.magnitude = b.magnitude ∧ Unit.eq a.unit b.unit = true) ∧
    Quantity.eq ⟨1, kmUnit⟩ (.qty ⟨1000, meterUnit⟩) = false := by
  constructor
  · intro a b
    simp [Quantity.eq]
  · simp [Quantity.eq, Unit.eq, kmUnit, meterUnit]

/-- C6: when the in-place conversion fails, the quantity's state (magnitude
and unit) is exactly what it was before the call — the conversion factor
is computed before either field is written. -/
theorem ito_failure_preserves_state (q : Quantity) (t : Target) (e : QError)
    (h : (Quantity.ito q t).1 = .error e) : (Quantity.ito q t).2 = q := by
  unfold Quantity.ito at h ⊢
  cases hr : resolveTarget q t with
  | error e2 => simp [hr]
  | ok tu =>
    cases hc : Unit.conversion_factor q.unit tu with
    | error e2 => simp [hr, hc]
    | ok f => simp [hr, hc] at h

/-- Witness for C6: an `ito` on a quantity whose unit has no registry, with
a string target, fails and leaves the quantity unchanged. -/
theorem ito_failure_preserves_state_witness :
    (Quantity.ito ⟨1, kmUnit⟩ (.str "meter")).2 = ⟨1, kmUnit⟩ :=
  ito_failure_preserves_state ⟨1, kmUnit⟩ (.str "meter") .configError rfl

/-- C7: with no registry linked to the unit, both `to` and `ito` on a string
target fail with the configuration error, and `ito` performs no
conversion. -/
theorem string_conversion_without_registry_errors (q : Quantity) (s : String)
    (h : q.unit.registry = none) :
    Quantity.to q (.str s) = .error .configError ∧
    (Quantity.ito q (.str s)).1 = .error .configError ∧
    (Quantity.ito q (.str s)).2 = q := by
  refine ⟨?_, ?_, ?_⟩ <;>
    simp [Quantity.to, Quantity.ito, resolveTarget, h]

/-- Witness for C7: 1 km with no linked registry, converted to the name
"meter", fails with the configuration error both ways. -/
theorem string_conversion_without_registry_errors_witness :
    Quantity.to ⟨1, kmUnit⟩ (.str "meter") = .error .configError ∧
    (Quantity.ito ⟨1, kmUnit⟩ (.str "meter")).1 = .error .configError ∧
    (Quantity.ito ⟨1, kmUnit⟩ (.str "meter")).2 = ⟨1, kmUnit⟩ :=
  string_conversion_without_registry_errors ⟨1, kmUnit⟩ "meter" rfl

/-- C8: converting a quantity to a compatible unit (same unit_type) and back
reproduces the original quantity exactly — in the rational embedding the
two conversion factors are exact reciprocals, so the magnitude returns to
its original value (the floating-point statement holds within tolerance). -/
theorem to_roundtrip_exact (q : Quantity) (v : Unit)
    (ht : Unit.unit_type q.unit = Unit.unit_type v)
    (hq : scalesNonzero q.unit) (hv : scalesNonzero v) :
    (Quantity.to q (.unit v)).bind (fun q2 => Quantity.to q2 (.unit q.unit)) =
      .ok q := by
  have h1 : cfValue q.unit v * cfValue v q.unit = 1 := cfValue_mul_symm _ _ hq hv
  have h2 : q.magnitude * cfValue q.unit v * cfValue v q.unit = q.magnitude := by
    rw [mul_assoc, h1, mul_one]
  simp only [Quantity.to, resolveTarget, Unit.conversion_factor, if_pos ht,
    if_pos ht.symm, Except.bind, h2]

/-- Witness for C8: 7 km converted to meter and back is again 7 km. -/
theorem to_roundtrip_exact_witness :
    (Quantity.to ⟨7, kmUnit⟩ (.unit meterUnit)).bind
        (fun q2 => Quantity.to q2 (.unit kmUnit)) =
      .ok ⟨7, kmUnit⟩ :=
  to_roundtrip_exact ⟨7, kmUnit⟩ meterUnit rfl
    (by constructor <;> simp [kmUnit])
    (by constructor <;> simp [meterUnit])

/-- C9: comparing a Quantity with a non-Quantity operand — a plain number or
a bare Unit — returns `False` for both `__eq__` and `__lt__`, with no
error raised: the guard rejects the operand before any conversion. -/
theorem non_quantity_comparisons_false (q : Quantity) (x : ℚ) (u : Unit) :
    Quantity.eq q (.num x) = false ∧ Quantity.eq q (.unitOp u) = false ∧
    Quantity.lt q (.num x) = .ok false ∧ Quantity.lt q (.unitOp u) = .ok false :=
  ⟨rfl, rfl, rfl, rfl⟩

/-- C10: the convenience methods `__trunc__`, `__floor__` and `__ceil__`
always raise `NameError`: the global names `trunc`, `floor` and `ceil`
they call are bound neither at module level (only the imports of lines
2-5 and the class itself are) nor among Python's builtins. -/
theorem trunc_floor_ceil_raise_name_error (q : Quantity) :
    Quantity.qtrunc q = .error .nameError ∧
    Quantity.qfloor q = .error .nameError ∧
    Quantity.qceil q = .error .nameError :=
  ⟨rfl, rfl, rfl⟩

end Pintless
